import Mathlib

/-!
Verification of the net-ops-agent interpretation-and-approval loop.

Shallow embedding of the three source modules:
* `tools.py`  — the simulated tool capabilities (`get_service_health`,
  `restart_service`, `scale_cluster`); their internal randomness
  (`random.choice`, `random.uniform`, `random.randint`) is modelled as an
  explicit `Rand` record of draws carrying the range guarantees the Python
  `random` primitives provide.
* `agent.py`  — `analyze_request` (the Decision Interpreter) and
  `execute_tool` (the Tool Registry).  The interaction with the external
  Gemini engine is modelled as an `Except String EngineResponse`: the
  `.error` case stands for any exception raised inside the `try` block.
* `app.py`    — the Streamlit session loop, modelled as a step function on
  the session state (`messages`, `pending_action`) over operator events;
  each step also reports the list of `execute_tool` invocations it performs.
-/

namespace NetOps

/-- A Python primitive value as it flows through tool arguments and
tool results (strings, ints, floats, bools).  Floats are modelled as
rationals. -/
inductive Value where
  | str (s : String)
  | int (n : Int)
  | rat (q : ℚ)
  | bool (b : Bool)
deriving DecidableEq

/-- A tool result: the Python dict returned by a tool (or the error dict
built by `execute_tool`), as an ordered list of key/value pairs. -/
def ToolResult := List (String × Value)

instance : DecidableEq ToolResult := by
  unfold ToolResult
  infer_instance

/-- The list `statuses` in `get_service_health` (tools.py line 19). -/
def statuses : List String := ["Running", "Failed", "Degraded"]

/-- One outcome of all the randomness (and clock reads) the simulated tools
use.  Each draw carries the guarantee its Python primitive provides:
`random.choice(statuses)` picks an element of `statuses` (an index below its
length), `random.uniform(5.0, 95.0)` lands in `[5, 95]`,
`random.randint(128, 4096)` in `[128, 4096]`, and `random.randint(-2, 2)` in
`[-2, 2]`.  `timestamp` is the string `time.strftime` returns. -/
structure Rand where
  statusIdx : Fin statuses.length
  cpuDraw : ℚ
  cpu_lb : 5 ≤ cpuDraw
  cpu_ub : cpuDraw ≤ 95
  memDraw : Int
  mem_lb : 128 ≤ memDraw
  mem_ub : memDraw ≤ 4096
  scaleDelta : Int
  delta_lb : -2 ≤ scaleDelta
  delta_ub : scaleDelta ≤ 2
  timestamp : String

/-- Python `round(x, 2)`: round to two decimal places.  (CPython rounds
half to even; the rounding direction at ties does not affect any property
proved here, so Mathlib's `round` is used.) -/
def round2 (q : ℚ) : ℚ := ((round (100 * q) : Int) : ℚ) / 100

/-- Python truthiness of a `Value`, as used by `"force" if force else
"graceful"` in `restart_service`. -/
def pyTruthy : Value → Bool
  | .str s => s ≠ ""
  | .int n => n ≠ 0
  | .rat q => q ≠ 0
  | .bool b => b

/-- `get_service_health` (tools.py lines 5-30).  `service_name` is stored in
the result as received (Python never checks its type); `status` is the
randomly chosen element of `statuses`; the cpu draw is rounded to two
decimals.  The `time.sleep` latency simulation has no effect on the
result. -/
def get_service_health (service_name : Value) (r : Rand) : ToolResult :=
  [("service", service_name),
   ("status", .str (statuses.get r.statusIdx)),
   ("cpu_usage_percent", .rat (round2 r.cpuDraw)),
   ("memory_usage_mb", .int r.memDraw)]

/-- `restart_service` (tools.py lines 32-59).  The `time.sleep` duration has
no effect on the result; the timestamp comes from the clock (`Rand`). -/
def restart_service (service_name : Value) (force : Value) (r : Rand) : ToolResult :=
  [("service", service_name),
   ("action", .str "restart"),
   ("mode", .str (if pyTruthy force then "force" else "graceful")),
   ("status", .str "Success"),
   ("timestamp", .str r.timestamp)]

/-- `scale_cluster` (tools.py lines 61-87).  `previous = max(1, replicas +
random.randint(-2, 2))`.  `replicas` arrives dynamically typed: for an int
(or bool, which Python treats as an int in arithmetic) the body succeeds;
for a float, `max(1, replicas + d)` returns the float when it exceeds 1 and
the int 1 otherwise; for a string, `replicas + d` raises `TypeError`, which
`execute_tool` catches (the `.error` case). -/
def scale_cluster (cluster_id : Value) (replicas : Value) (r : Rand) :
    Except String ToolResult :=
  match replicas with
  | .int n =>
      .ok [("cluster_id", cluster_id),
           ("previous_replicas", .int (max 1 (n + r.scaleDelta))),
           ("current_replicas", .int n),
           ("status", .str "Scaled")]
  | .bool b =>
      .ok [("cluster_id", cluster_id),
           ("previous_replicas", .int (max 1 ((if b then 1 else 0) + r.scaleDelta))),
           ("current_replicas", .bool b),
           ("status", .str "Scaled")]
  | .rat q =>
      .ok [("cluster_id", cluster_id),
           ("previous_replicas",
             if 1 < q + (r.scaleDelta : ℚ) then .rat (q + (r.scaleDelta : ℚ)) else .int 1),
           ("current_replicas", .rat q),
           ("status", .str "Scaled")]
  | .str _ => .error "can only concatenate str to str"

/-- The keys of a Python keyword-argument dict. -/
def keys (args : List (String × Value)) : List String := args.map Prod.fst

/-- Python keyword-argument binding for a call `func(**tool_args)` against a
signature with the given required and optional parameter names: every
required parameter must be supplied and no unknown keyword is accepted.
(Value types are not checked — Python binds untyped.)  The `.error` case
stands for the `TypeError` CPython raises at the call site, before the
function body runs. -/
def bindArgs (required optional : List String) (args : List (String × Value)) :
    Except String Unit :=
  match required.find? (fun p => !((keys args).contains p)) with
  | some p => .error ("missing 1 required positional argument: " ++ p)
  | none =>
    match (keys args).find? (fun k => !(required.contains k) && !(optional.contains k)) with
    | some k => .error ("got an unexpected keyword argument " ++ k)
    | none => .ok ()

/-- The value a keyword argument binds to, with a default for optional
parameters.  For required parameters this is only consulted after `bindArgs`
succeeded, so the default is never reached. -/
def lookupArg (args : List (String × Value)) (k : String) (dflt : Value) : Value :=
  match args.find? (fun kv => kv.1 == k) with
  | some kv => kv.2
  | none => dflt

/-- The keys of `tool_map` in `execute_tool` (agent.py lines 81-85). -/
def toolNames : List String := ["get_service_health", "restart_service", "scale_cluster"]

/-- Required parameter names of each registered tool (from the Python
signatures in tools.py). -/
def toolRequired : String → List String
  | "get_service_health" => ["service_name"]
  | "restart_service" => ["service_name"]
  | "scale_cluster" => ["cluster_id", "replicas"]
  | _ => []

/-- Optional parameter names of each registered tool (`force` has a default
in `restart_service`). -/
def toolOptional : String → List String
  | "restart_service" => ["force"]
  | _ => []

/-- `execute_tool` (agent.py lines 69-96).  First component: the returned
dict — the unknown-tool error dict, the caught-exception error dict, or the
tool's result.  Second component: the capabilities whose body was actually
entered (empty when the tool is unknown or keyword binding raised at the
call site; `scale_cluster` appears even when its body then raises, since the
capability was invoked before failing). -/
def execute_tool (tool_name : String) (tool_args : List (String × Value)) (r : Rand) :
    ToolResult × List String :=
  if tool_name = "get_service_health" then
    match bindArgs ["service_name"] [] tool_args with
    | .error c => ([("error", .str ("Tool execution failed: " ++ c))], [])
    | .ok _ =>
        (get_service_health (lookupArg tool_args "service_name" (.str "")) r, [tool_name])
  else if tool_name = "restart_service" then
    match bindArgs ["service_name"] ["force"] tool_args with
    | .error c => ([("error", .str ("Tool execution failed: " ++ c))], [])
    | .ok _ =>
        (restart_service (lookupArg tool_args "service_name" (.str ""))
          (lookupArg tool_args "force" (.bool false)) r, [tool_name])
  else if tool_name = "scale_cluster" then
    match bindArgs ["cluster_id", "replicas"] [] tool_args with
    | .error c => ([("error", .str ("Tool execution failed: " ++ c))], [])
    | .ok _ =>
        match scale_cluster (lookupArg tool_args "cluster_id" (.str ""))
            (lookupArg tool_args "replicas" (.str "")) r with
        | .ok res => (res, [tool_name])
        | .error c => ([("error", .str ("Tool execution failed: " ++ c))], [tool_name])
  else
    ([("error", .str ("Unknown tool: " ++ tool_name))], [])

/-- A structured-call directive in an engine response part
(`part.function_call` with its `name` and `args`). -/
structure FunctionCall where
  name : String
  args : List (String × Value)
deriving DecidableEq

/-- One part of an engine response; `function_call` is `none` when the part
carries no structured call (Python truthiness of `part.function_call`). -/
structure Part where
  function_call : Option FunctionCall
deriving DecidableEq

/-- A successfully received engine response: its `parts` and the free text
its `.text` accessor yields. -/
structure EngineResponse where
  parts : List Part
  text : String
deriving DecidableEq

/-- The decision dict `analyze_request` returns: either
`{type: action, tool, args}` or `{type: chat, response}`. -/
inductive Decision where
  | action (tool : String) (args : List (String × Value))
  | chat (response : String)
deriving DecidableEq

/-- The `for part in response.parts` loop of `analyze_request`: the first
part whose `function_call` is set, if any. -/
def firstFunctionCall : List Part → Option FunctionCall
  | [] => none
  | p :: ps =>
    match p.function_call with
    | some fc => some fc
    | none => firstFunctionCall ps

/-- `analyze_request` (agent.py lines 22-67).  The whole interaction with
the engine sits inside one `try`; its outcome is either `.error cause`
(any exception anywhere in the interaction, including a failing `.text`
accessor — the `except` branch) or `.ok response`.  The function is total:
no exception ever propagates to the caller. -/
def analyze_request (outcome : Except String EngineResponse) : Decision :=
  match outcome with
  | .error e => .chat ("Error interacting with Agent: " ++ e)
  | .ok response =>
    match firstFunctionCall response.parts with
    | some fc => .action fc.name fc.args
    | none => .chat response.text

/-- The content of a transcript message: free text, or a tool-result dict
stored as a distinct structured message (app.py line 96). -/
inductive Content where
  | text (s : String)
  | structured (res : ToolResult)
deriving DecidableEq

/-- One entry of `st.session_state.messages`. -/
structure Message where
  role : String
  content : Content
deriving DecidableEq

/-- The action dict held in `st.session_state.pending_action` (its `tool`
and `args` fields, the ones the approval widget reads). -/
structure PendingAction where
  tool : String
  args : List (String × Value)
deriving DecidableEq

/-- The mutable session state of app.py: the transcript and the single
pending-action slot. -/
structure SessionState where
  messages : List Message
  pending_action : Option PendingAction
deriving DecidableEq

/-- Session-state initialization (app.py lines 33-38). -/
def initState : SessionState := ⟨[], none⟩

/-- An operator event on the session.  A text submission carries the
outcome of the engine interaction `analyze_request` performs for it;
an approval carries the randomness the executed tool will draw. -/
inductive Event where
  | submit (prompt : String) (outcome : Except String EngineResponse)
  | approve (r : Rand)
  | reject
  | reset

/-- One Streamlit rerun of app.py, processing one operator event.  Returns
the next session state and the list of `execute_tool` invocations performed
(each recorded with the tool and args it was called with).

* `reset`: the sidebar button clears messages and the pending slot
  (lines 50-53).
* `submit`: the chat input is only rendered when no action is pending
  (line 116), so a submission while a proposal is pending changes nothing;
  otherwise the user turn is appended and the request analyzed — a chat
  decision appends an assistant turn, an action decision fills the pending
  slot (lines 117-135).
* `approve` / `reject`: the approval widget is only rendered when an action
  is pending (line 70); approve executes the tool and appends the
  announcement and the result as two assistant turns, reject appends a
  rejection notice; both clear the pending slot (lines 84-112). -/
def step (s : SessionState) (e : Event) : SessionState × List PendingAction :=
  match e with
  | .reset => (⟨[], none⟩, [])
  | .submit prompt outcome =>
    match s.pending_action with
    | some _ => (s, [])
    | none =>
      let msgs := s.messages ++ [⟨"user", .text prompt⟩]
      match analyze_request outcome with
      | .chat t => (⟨msgs ++ [⟨"assistant", .text t⟩], none⟩, [])
      | .action tool args => (⟨msgs, some ⟨tool, args⟩⟩, [])
  | .approve r =>
    match s.pending_action with
    | none => (s, [])
    | some a =>
      (⟨s.messages ++
          [⟨"assistant", .text ("Executed `" ++ a.tool ++ "`.\n\nResult:")⟩,
           ⟨"assistant", .structured (execute_tool a.tool a.args r).1⟩],
        none⟩,
       [a])
  | .reject =>
    match s.pending_action with
    | none => (s, [])
    | some a =>
      (⟨s.messages ++
          [⟨"assistant", .text ("❌ Action `" ++ a.tool ++ "` was rejected by the operator.")⟩],
        none⟩,
       [])

/-- A concrete randomness outcome, used to instantiate theorems. -/
def sampleRand : Rand :=
  ⟨⟨0, by decide⟩, 50, by norm_num, by norm_num, 1024, by norm_num, by norm_num,
   1, by norm_num, by norm_num, "2026-01-01 00:00:00"⟩

/-- Claim C3: every failure of the engine interaction (the `.error` outcome,
standing for any exception raised inside the `try` block of
`analyze_request`) yields a chat decision whose text is
`"Error interacting with Agent: "` followed by the cause.  `analyze_request`
is a total function into `Decision`, so no exception propagates to its
caller. -/
theorem analyze_request_error_decision (e : String) :
    analyze_request (.error e) = .chat ("Error interacting with Agent: " ++ e) := rfl

/-- Claim C8: for every cluster id and every `replicas ≥ 0`, `scale_cluster`
succeeds with `cluster_id` equal to the input, `current_replicas` equal to
the requested count, `previous_replicas ≥ 1` and status `"Scaled"`. -/
theorem scale_cluster_ok (cluster_id : String) (replicas : Int) (r : Rand)
    (h : 0 ≤ replicas) :
    ∃ prev : Int, 1 ≤ prev ∧
      scale_cluster (.str cluster_id) (.int replicas) r =
        .ok [("cluster_id", .str cluster_id),
             ("previous_replicas", .int prev),
             ("current_replicas", .int replicas),
             ("status", .str "Scaled")] :=
  ⟨max 1 (replicas + r.scaleDelta), le_max_left 1 _, rfl⟩

/-- Witness for C8 at `scale_cluster("prod", 5)`. -/
theorem scale_cluster_ok_witness :
    ∃ prev : Int, 1 ≤ prev ∧
      scale_cluster (.str "prod") (.int 5) sampleRand =
        .ok [("cluster_id", .str "prod"),
             ("previous_replicas", .int prev),
             ("current_replicas", .int 5),
             ("status", .str "Scaled")] :=
  scale_cluster_ok "prod" 5 sampleRand (by norm_num)

/-- Claim C10: for every `replicas ≥ 0` and every outcome of the internal
randomness, `previous_replicas` equals `max 1 (replicas + d)` for the drawn
`d ∈ [-2, 2]`, and hence differs from the requested count by at most 2. -/
theorem scale_cluster_previous_within_two (cluster_id : String) (replicas : Int)
    (r : Rand) (h : 0 ≤ replicas) :
    ∃ d prev : Int, -2 ≤ d ∧ d ≤ 2 ∧ prev = max 1 (replicas + d) ∧
      |prev - replicas| ≤ 2 ∧
      scale_cluster (.str cluster_id) (.int replicas) r =
        .ok [("cluster_id", .str cluster_id),
             ("previous_replicas", .int prev),
             ("current_replicas", .int replicas),
             ("status", .str "Scaled")] := by
  refine ⟨r.scaleDelta, max 1 (replicas + r.scaleDelta), r.delta_lb, r.delta_ub, rfl, ?_, rfl⟩
  have h1 := r.delta_lb
  have h2 := r.delta_ub
  rw [abs_le]
  omega

/-- Witness for C10 at `scale_cluster("west", 0)`. -/
theorem scale_cluster_previous_within_two_witness :
    ∃ d prev : Int, -2 ≤ d ∧ d ≤ 2 ∧ prev = max 1 (0 + d) ∧
      |prev - 0| ≤ 2 ∧
      scale_cluster (.str "west") (.int 0) sampleRand =
        .ok [("cluster_id", .str "west"),
             ("previous_replicas", .int prev),
             ("current_replicas", .int 0),
             ("status", .str "Scaled")] :=
  scale_cluster_previous_within_two "west" 0 sampleRand (by norm_num)

/-- `round(x, 2)` keeps a value of `[5, 95]` inside `[5, 95]`. -/
theorem round2_bounds (q : ℚ) (h5 : 5 ≤ q) (h95 : q ≤ 95) :
    5 ≤ round2 q ∧ round2 q ≤ 95 := by
  unfold round2
  constructor
  · rw [le_div_iff₀ (by norm_num : (0:ℚ) < 100)]
    have h : (500 : Int) ≤ round (100 * q) := by
      rw [round_eq, Int.le_floor]
      push_cast
      linarith
    calc (5 : ℚ) * 100 = ((500 : Int) : ℚ) := by norm_num
    _ ≤ _ := by exact_mod_cast h
  · rw [div_le_iff₀ (by norm_num : (0:ℚ) < 100)]
    have h : round (100 * q) ≤ (9500 : Int) := by
      rw [round_eq]
      have hlt : ⌊100 * q + 1 / 2⌋ < 9501 := by
        rw [Int.floor_lt]
        push_cast
        linarith
      omega
    calc ((round (100 * q) : Int) : ℚ) ≤ ((9500 : Int) : ℚ) := by exact_mod_cast h
    _ = 95 * 100 := by norm_num

/-- Claim C9: for every service name and every outcome of the internal
randomness, `get_service_health` returns `service` equal to the input, a
status among Running/Failed/Degraded, a cpu percentage in `[5, 95]` and a
memory figure in `[128, 4096]`. -/
theorem get_service_health_spec (service_name : String) (r : Rand) :
    ∃ (st : String) (cpu : ℚ) (mem : Int),
      get_service_health (.str service_name) r =
        [("service", .str service_name),
         ("status", .str st),
         ("cpu_usage_percent", .rat cpu),
         ("memory_usage_mb", .int mem)] ∧
      (st = "Running" ∨ st = "Failed" ∨ st = "Degraded") ∧
      5 ≤ cpu ∧ cpu ≤ 95 ∧ 128 ≤ mem ∧ mem ≤ 4096 := by
  refine ⟨statuses.get r.statusIdx, round2 r.cpuDraw, r.memDraw, rfl, ?_,
    (round2_bounds _ r.cpu_lb r.cpu_ub).1, (round2_bounds _ r.cpu_lb r.cpu_ub).2,
    r.mem_lb, r.mem_ub⟩
  have hm : ∀ i : Fin statuses.length,
      statuses.get i = "Running" ∨ statuses.get i = "Failed" ∨ statuses.get i = "Degraded" := by
    decide
  exact hm r.statusIdx

/-- Claim C6: for every tool name outside the registry, `execute_tool`
returns the unknown-tool error dict and enters no capability. -/
theorem execute_tool_unknown (tool_name : String) (tool_args : List (String × Value))
    (r : Rand) (h : tool_name ∉ toolNames) :
    execute_tool tool_name tool_args r =
      ([("error", .str ("Unknown tool: " ++ tool_name))], []) := by
  simp only [toolNames, List.mem_cons, List.mem_singleton, not_or] at h
  obtain ⟨h1, h2, h3⟩ := h
  simp [execute_tool, h1, h2, h3]

/-- Witness for C6 at `execute_tool("nonexistent_tool", {})`. -/
theorem execute_tool_unknown_witness :
    execute_tool "nonexistent_tool" [] sampleRand =
      ([("error", .str ("Unknown tool: nonexistent_tool"))], []) :=
  execute_tool_unknown "nonexistent_tool" [] sampleRand (by decide)

/-- Keyword binding fails whenever a required parameter is missing or an
unknown keyword is supplied. -/
theorem bindArgs_error_of_bad (required optional : List String)
    (args : List (String × Value))
    (h : (∃ p ∈ required, p ∉ keys args) ∨
         (∃ k ∈ keys args, k ∉ required ∧ k ∉ optional)) :
    ∃ c, bindArgs required optional args = .error c := by
  unfold bindArgs
  cases hf : required.find? (fun p => !((keys args).contains p)) with
  | some p => exact ⟨_, rfl⟩
  | none =>
    cases hg : (keys args).find? (fun k => !(required.contains k) && !(optional.contains k)) with
    | some k => exact ⟨_, rfl⟩
    | none =>
      exfalso
      rcases h with ⟨p, hp, hnp⟩ | ⟨k, hk, hk1, hk2⟩
      · have hfp := List.find?_eq_none.mp hf p hp
        simp only [Bool.not_eq_true', Bool.not_eq_false] at hfp
        exact hnp (List.elem_iff.mp hfp)
      · have hgk := List.find?_eq_none.mp hg k hk
        apply hgk
        cases hc1 : required.contains k with
        | true => exact absurd (List.elem_iff.mp hc1) hk1
        | false =>
          cases hc2 : optional.contains k with
          | true => exact absurd (List.elem_iff.mp hc2) hk2
          | false => rfl

/-- Claim C7: for every registered tool, an argument dict missing a required
parameter or carrying an unknown keyword makes `execute_tool` return the
`"Tool execution failed: "` error dict without entering the capability. -/
theorem execute_tool_strict_binding (tool_name : String)
    (tool_args : List (String × Value)) (r : Rand)
    (hreg : tool_name ∈ toolNames)
    (hbad : (∃ p ∈ toolRequired tool_name, p ∉ keys tool_args) ∨
            (∃ k ∈ keys tool_args,
              k ∉ toolRequired tool_name ∧ k ∉ toolOptional tool_name)) :
    ∃ cause, execute_tool tool_name tool_args r =
      ([("error", .str ("Tool execution failed: " ++ cause))], []) := by
  simp only [toolNames, List.mem_cons, List.not_mem_nil, or_false] at hreg
  rcases hreg with h | h | h <;> subst h
  · obtain ⟨c, hc⟩ := bindArgs_error_of_bad ["service_name"] [] tool_args hbad
    exact ⟨c, by simp [execute_tool, hc]⟩
  · obtain ⟨c, hc⟩ := bindArgs_error_of_bad ["service_name"] ["force"] tool_args hbad
    exact ⟨c, by simp [execute_tool, hc]⟩
  · obtain ⟨c, hc⟩ := bindArgs_error_of_bad ["cluster_id", "replicas"] [] tool_args hbad
    exact ⟨c, by simp [execute_tool, hc]⟩

/-- Witness for C7: a missing required argument
(`execute_tool("get_service_health", {})`) and an unknown keyword
(`execute_tool("scale_cluster", ...)` with an extra key) both fail with the
execution-failed error dict and no capability entered. -/
theorem execute_tool_strict_binding_witness :
    (∃ cause, execute_tool "get_service_health" [] sampleRand =
      ([("error", .str ("Tool execution failed: " ++ cause))], [])) ∧
    (∃ cause, execute_tool "scale_cluster"
        [("cluster_id", .str "prod"), ("replicas", .int 5), ("color", .str "blue")]
        sampleRand =
      ([("error", .str ("Tool execution failed: " ++ cause))], [])) :=
  ⟨execute_tool_strict_binding "get_service_health" [] sampleRand (by decide)
     (Or.inl ⟨"service_name", by decide, by decide⟩),
   execute_tool_strict_binding "scale_cluster"
     [("cluster_id", .str "prod"), ("replicas", .int 5), ("color", .str "blue")]
     sampleRand (by decide)
     (Or.inr ⟨"color", by decide, by decide, by decide⟩)⟩

/-- The part-scanning loop skips a prefix of parts that carry no
structured call. -/
theorem firstFunctionCall_append_of_none (pre l : List Part)
    (h : ∀ q ∈ pre, q.function_call = none) :
    firstFunctionCall (pre ++ l) = firstFunctionCall l := by
  induction pre with
  | nil => rfl
  | cons q qs ih =>
    have hq : q.function_call = none := h q (List.mem_cons_self q qs)
    have hqs : ∀ x ∈ qs, x.function_call = none := fun x hx => h x (List.mem_cons_of_mem q hx)
    simpa [firstFunctionCall, hq] using ih hqs

/-- When no part carries a structured call, the scan finds none. -/
theorem firstFunctionCall_eq_none (l : List Part)
    (h : ∀ q ∈ l, q.function_call = none) :
    firstFunctionCall l = none := by
  have := firstFunctionCall_append_of_none l [] h
  simpa using this

/-- Claim C5: `analyze_request` honors only the first part carrying a
structured call — for any prefix of call-free parts and any parts after the
first call, the decision is the action built from that first call; and when
no part carries a call the decision is the chat reply with the engine's
free text. -/
theorem analyze_request_first_call :
    (∀ (pre rest : List Part) (p : Part) (fc : FunctionCall) (text : String),
        (∀ q ∈ pre, q.function_call = none) →
        p.function_call = some fc →
        analyze_request (.ok ⟨pre ++ p :: rest, text⟩) = .action fc.name fc.args) ∧
    (∀ (parts : List Part) (text : String),
        (∀ q ∈ parts, q.function_call = none) →
        analyze_request (.ok ⟨parts, text⟩) = .chat text) := by
  constructor
  · intro pre rest p fc text hpre hp
    simp [analyze_request, firstFunctionCall_append_of_none pre _ hpre,
      firstFunctionCall, hp]
  · intro parts text h
    simp [analyze_request, firstFunctionCall_eq_none parts h]

/-- Witness for C5: a leading call-free part, then a
`get_service_health` call that is honored, then a `scale_cluster` call that
is discarded; and a call-free response that becomes a chat reply. -/
theorem analyze_request_first_call_witness :
    analyze_request (.ok ⟨[⟨none⟩,
        ⟨some ⟨"get_service_health", [("service_name", .str "web-api")]⟩⟩,
        ⟨some ⟨"scale_cluster", [("cluster_id", .str "prod")]⟩⟩], "free text"⟩)
      = .action "get_service_health" [("service_name", .str "web-api")] ∧
    analyze_request (.ok ⟨[⟨none⟩], "I can help with network operations."⟩)
      = .chat "I can help with network operations." :=
  ⟨analyze_request_first_call.1 [⟨none⟩]
     [⟨some ⟨"scale_cluster", [("cluster_id", .str "prod")]⟩⟩]
     ⟨some ⟨"get_service_health", [("service_name", .str "web-api")]⟩⟩
     ⟨"get_service_health", [("service_name", .str "web-api")]⟩ "free text"
     (by intro q hq; simp only [List.mem_singleton] at hq; subst hq; rfl) rfl,
   analyze_request_first_call.2 [⟨none⟩] "I can help with network operations."
     (by intro q hq; simp only [List.mem_singleton] at hq; subst hq; rfl)⟩

/-- Claim C1: the single-pending invariant.  (1) While a proposal is
pending, a text submission is not processed: the state is unchanged and
nothing executes (the chat input is not rendered).  (2) A step can only
leave a proposal pending if the slot was empty before (the proposal was just
set from Idle) or it is the very proposal that was already there (the
untouched slot).  (3)/(4) After an approval or a rejection event the slot is
always empty, so input resumes from Idle. -/
theorem single_pending_invariant :
    (∀ (s : SessionState) (a : PendingAction) (prompt : String)
       (outcome : Except String EngineResponse),
        s.pending_action = some a →
        step s (.submit prompt outcome) = (s, [])) ∧
    (∀ (s : SessionState) (e : Event) (a : PendingAction),
        (step s e).1.pending_action = some a →
        s.pending_action = none ∨ s.pending_action = some a) ∧
    (∀ (s : SessionState) (r : Rand),
        (step s (.approve r)).1.pending_action = none) ∧
    (∀ s : SessionState, (step s .reject).1.pending_action = none) := by
  refine ⟨?_, ?_, ?_, ?_⟩
  · intro s a prompt outcome h
    simp [step, h]
  · intro s e a h
    cases hs : s.pending_action with
    | none => exact Or.inl rfl
    | some b =>
      right
      cases e with
      | submit prompt outcome => simp [step, hs] at h; rw [h]
      | approve r => simp [step, hs] at h
      | reject => simp [step, hs] at h
      | reset => simp [step] at h
  · intro s r
    cases hs : s.pending_action <;> simp [step, hs]
  · intro s
    cases hs : s.pending_action <;> simp [step, hs]

/-- Witness for C1: a submission against a pending proposal is a no-op; a
proposal observed after a step from the initial (Idle) state was set from
Idle; approval and rejection leave the slot empty. -/
theorem single_pending_invariant_witness :
    step ⟨[], some ⟨"scale_cluster", [("cluster_id", .str "prod")]⟩⟩
        (.submit "scale up" (.error "boom")) =
      (⟨[], some ⟨"scale_cluster", [("cluster_id", .str "prod")]⟩⟩, []) ∧
    (initState.pending_action = none ∨
      initState.pending_action = some ⟨"get_service_health", []⟩) ∧
    (step ⟨[], some ⟨"scale_cluster", [("cluster_id", .str "prod")]⟩⟩
        (.approve sampleRand)).1.pending_action = none ∧
    (step ⟨[], some ⟨"scale_cluster", [("cluster_id", .str "prod")]⟩⟩
        .reject).1.pending_action = none :=
  ⟨single_pending_invariant.1 ⟨[], some ⟨"scale_cluster", [("cluster_id", .str "prod")]⟩⟩
     ⟨"scale_cluster", [("cluster_id", .str "prod")]⟩ "scale up" (.error "boom") rfl,
   single_pending_invariant.2.1 initState
     (.submit "check health" (.ok ⟨[⟨some ⟨"get_service_health", []⟩⟩], "t"⟩))
     ⟨"get_service_health", []⟩ rfl,
   single_pending_invariant.2.2.1 ⟨[], some ⟨"scale_cluster", [("cluster_id", .str "prod")]⟩⟩
     sampleRand,
   single_pending_invariant.2.2.2 ⟨[], some ⟨"scale_cluster", [("cluster_id", .str "prod")]⟩⟩⟩

/-- Claim C2: `execute_tool` is invoked iff the operator approves.
(1) Rejecting a pending proposal performs no invocation, appends the
rejection notice to the transcript and empties the pending slot (back to
Idle).  (2) Approving a pending proposal performs exactly the invocation of
that proposal.  (3) Any step that performs an invocation is an approval of
the pending proposal, and invokes exactly it. -/
theorem execute_iff_approved :
    (∀ (s : SessionState) (a : PendingAction),
        s.pending_action = some a →
        step s .reject =
          (⟨s.messages ++
              [⟨"assistant",
                .text ("❌ Action `" ++ a.tool ++ "` was rejected by the operator.")⟩],
            none⟩, [])) ∧
    (∀ (s : SessionState) (a : PendingAction) (r : Rand),
        s.pending_action = some a → (step s (.approve r)).2 = [a]) ∧
    (∀ (s : SessionState) (e : Event),
        (step s e).2 ≠ [] →
        ∃ (r : Rand) (a : PendingAction),
          e = .approve r ∧ s.pending_action = some a ∧ (step s e).2 = [a]) := by
  refine ⟨?_, ?_, ?_⟩
  · intro s a h
    simp [step, h]
  · intro s a r h
    simp [step, h]
  · intro s e h
    cases e with
    | submit prompt outcome =>
      exfalso
      apply h
      cases hs : s.pending_action with
      | some b => simp [step, hs]
      | none =>
        cases hd : analyze_request outcome with
        | chat t => simp [step, hs, hd]
        | action tool args => simp [step, hs, hd]
    | approve r =>
      cases hs : s.pending_action with
      | none => exact absurd (by simp [step, hs]) h
      | some a => exact ⟨r, a, rfl, rfl, by simp [step, hs]⟩
    | reject =>
      exfalso
      apply h
      cases hs : s.pending_action with
      | some b => simp [step, hs]
      | none => simp [step, hs]
    | reset => exact absurd rfl h

/-- Witness for C2: rejecting a pending `get_service_health` proposal
appends the rejection notice and executes nothing; approving it executes
exactly it; the nonempty trace of that approval certifies the converse. -/
theorem execute_iff_approved_witness :
    step ⟨[], some ⟨"get_service_health", [("service_name", .str "web-api")]⟩⟩ .reject =
      (⟨[] ++
          [⟨"assistant",
            .text ("❌ Action `get_service_health` was rejected by the operator.")⟩],
        none⟩, []) ∧
    (step ⟨[], some ⟨"get_service_health", [("service_name", .str "web-api")]⟩⟩
        (.approve sampleRand)).2 =
      [⟨"get_service_health", [("service_name", .str "web-api")]⟩] ∧
    ∃ (r : Rand) (a : PendingAction),
      Event.approve sampleRand = .approve r ∧
      SessionState.pending_action
          ⟨[], some ⟨"get_service_health", [("service_name", .str "web-api")]⟩⟩ = some a ∧
      (step ⟨[], some ⟨"get_service_health", [("service_name", .str "web-api")]⟩⟩
          (.approve sampleRand)).2 = [a] :=
  ⟨execute_iff_approved.1 ⟨[], some ⟨"get_service_health", [("service_name", .str "web-api")]⟩⟩
     ⟨"get_service_health", [("service_name", .str "web-api")]⟩ rfl,
   execute_iff_approved.2.1 ⟨[], some ⟨"get_service_health", [("service_name", .str "web-api")]⟩⟩
     ⟨"get_service_health", [("service_name", .str "web-api")]⟩ sampleRand rfl,
   execute_iff_approved.2.2 ⟨[], some ⟨"get_service_health", [("service_name", .str "web-api")]⟩⟩
     (.approve sampleRand) (by decide)⟩

/-- Claim C4: approving a pending proposal invokes `execute_tool` exactly
once for it, appends the announcement turn and then the result (or error
dict) as a separate turn, and empties the pending slot — unconditionally,
whether the execution succeeds or returns an error dict. -/
theorem approve_executes_exactly_once (s : SessionState) (a : PendingAction) (r : Rand)
    (h : s.pending_action = some a) :
    step s (.approve r) =
      (⟨s.messages ++
          [⟨"assistant", .text ("Executed `" ++ a.tool ++ "`.\n\nResult:")⟩,
           ⟨"assistant", .structured (execute_tool a.tool a.args r).1⟩],
        none⟩,
       [a]) := by
  simp [step, h]

/-- Witness for C4: one approval with well-formed `scale_cluster` args
(execution succeeds) and one with empty args (execution fails, the error
dict is appended) — both append the two turns, record exactly one
invocation and clear the slot. -/
theorem approve_executes_exactly_once_witness :
    step ⟨[], some ⟨"scale_cluster", [("cluster_id", .str "prod"), ("replicas", .int 5)]⟩⟩
        (.approve sampleRand) =
      (⟨[] ++
          [⟨"assistant", .text ("Executed `scale_cluster`.\n\nResult:")⟩,
           ⟨"assistant", .structured
             (execute_tool "scale_cluster"
               [("cluster_id", .str "prod"), ("replicas", .int 5)] sampleRand).1⟩],
        none⟩,
       [⟨"scale_cluster", [("cluster_id", .str "prod"), ("replicas", .int 5)]⟩]) ∧
    step ⟨[], some ⟨"scale_cluster", []⟩⟩ (.approve sampleRand) =
      (⟨[] ++
          [⟨"assistant", .text ("Executed `scale_cluster`.\n\nResult:")⟩,
           ⟨"assistant", .structured (execute_tool "scale_cluster" [] sampleRand).1⟩],
        none⟩,
       [⟨"scale_cluster", []⟩]) :=
  ⟨approve_executes_exactly_once
     ⟨[], some ⟨"scale_cluster", [("cluster_id", .str "prod"), ("replicas", .int 5)]⟩⟩
     ⟨"scale_cluster", [("cluster_id", .str "prod"), ("replicas", .int 5)]⟩ sampleRand rfl,
   approve_executes_exactly_once ⟨[], some ⟨"scale_cluster", []⟩⟩
     ⟨"scale_cluster", []⟩ sampleRand rfl⟩

end NetOps
